import Mathlib

/-!
Verification of the crypto-alert price monitoring engine.

Shallow embedding of the Python sources under src/backend/src:
monitoring/alert_checker.py, monitoring/price_monitor.py,
websocket/manager.py, market_data/client.py, market_data/service.py.

Modelling choices:
- Python float prices are modelled as exact rationals (Rat); every claim
  about them is a comparison or an exact arithmetic identity.
- Python dicts and sets are modelled as association lists / duplicate-free
  lists, updated functionally.
- Exceptions are modelled with Except; a Python function that can raise
  returns an Except value.
- I/O calls (HTTP providers, the price fetch, the clock) are modelled as
  explicit oracle parameters.
-/

namespace CryptoAlert

/-- Asset classes, from src/alerts/constants.py (class AssetType). -/
inductive AssetType where
  | stock
  | crypto
deriving DecidableEq, Repr

/-- The string value of an asset type, as in the Python str-enum. -/
def AssetType.value : AssetType → String
  | .stock => "stock"
  | .crypto => "crypto"

/-- Alert kinds, from src/alerts/constants.py (class AlertType). -/
inductive AlertType where
  | above
  | below
  | percent_change
deriving DecidableEq, Repr

/-- Alert lifecycle states, from src/alerts/constants.py (class AlertStatus). -/
inductive AlertStatus where
  | active
  | triggered
  | paused
  | deleted
deriving DecidableEq, Repr

/-- The Alert record, from src/alerts/models.py (class Alert).
Nullable columns become Option; timestamps are abstract Nat ticks. -/
structure Alert where
  id : Nat
  user_id : Nat
  symbol : String
  asset_type : AssetType
  alert_type : AlertType
  target_price : Rat
  percent_change : Option Rat
  status : AlertStatus
  notify_email : Bool
  notify_sms : Bool
  notify_websocket : Bool
  created_price : Option Rat
  triggered_price : Option Rat
  triggered_at : Option Nat
deriving DecidableEq, Repr

/-- Runtime errors AlertChecker.should_trigger_alert can raise in Python:
dividing by a zero created_price raises ZeroDivisionError, and comparing a
float against a None percent_change raises TypeError. -/
inductive EvalError where
  | zeroDivisionError
  | typeError
deriving DecidableEq, Repr

/-- AlertChecker.should_trigger_alert from src/monitoring/alert_checker.py.
Returns Except because the Python code is not total: with a recorded zero
baseline the percent-change branch divides by zero, and with a None
percent_change threshold the comparison raises TypeError. The status guard
and the three alert-kind branches are translated clause by clause. -/
def should_trigger_alert (alert : Alert) (current_price : Rat) : Except EvalError Bool :=
  if alert.status ≠ AlertStatus.active then
    Except.ok false
  else
    match alert.alert_type with
    | AlertType.above => Except.ok (decide (current_price ≥ alert.target_price))
    | AlertType.below => Except.ok (decide (current_price ≤ alert.target_price))
    | AlertType.percent_change =>
      match alert.created_price with
      | none => Except.ok false
      | some cp =>
        if cp = 0 then
          Except.error EvalError.zeroDivisionError
        else
          match alert.percent_change with
          | none => Except.error EvalError.typeError
          | some th =>
            Except.ok (decide (abs (((current_price - cp) / cp) * 100) ≥ th))

/-- Observable side effects of one monitoring cycle: a price_update broadcast
to the Connection Hub (manager.send_price_update), a websocket alert
notification (manager.send_alert_notification via AlertChecker.notify_user),
or an outbound email (email_service.send_alert_email). -/
inductive Event where
  | price_update (symbol : String) (asset_type : AssetType) (price : Rat)
  | alert_notification (user_id : Nat) (alert_id : Nat) (symbol : String) (current_price : Rat)
  | email_notification (alert_id : Nat)
deriving DecidableEq, Repr

/-- PriceMonitor._check_alert from src/monitoring/price_monitor.py.
Evaluates one alert against the fetched price; on trigger it transitions the
alert to triggered, stamps triggered_price and triggered_at, and dispatches
notifications (returned here as events). An EvalError raised by
should_trigger_alert propagates to the caller. -/
def check_alert (alert : Alert) (current_price : Rat) (now : Nat) :
    Except EvalError (Alert × List Event) :=
  match should_trigger_alert alert current_price with
  | Except.error e => Except.error e
  | Except.ok false => Except.ok (alert, [])
  | Except.ok true =>
    let updated := { alert with
      status := AlertStatus.triggered,
      triggered_price := some current_price,
      triggered_at := some now }
    Except.ok (updated,
      (if alert.notify_websocket then
        [Event.alert_notification alert.user_id alert.id alert.symbol current_price]
       else []) ++
      (if alert.notify_email then [Event.email_notification alert.id] else []))

/-- Scenario A alert: kind above, target 50000, symbol BTC, active. -/
def btcAboveAlert : Alert :=
  { id := 1, user_id := 1, symbol := "BTC", asset_type := AssetType.crypto,
    alert_type := AlertType.above, target_price := 50000, percent_change := none,
    status := AlertStatus.active, notify_email := true, notify_sms := false,
    notify_websocket := true, created_price := none, triggered_price := none,
    triggered_at := none }

/-- Scenario B alert: kind percent-change, baseline 100, threshold 5, active. -/
def pcAlert : Alert :=
  { id := 2, user_id := 1, symbol := "ETH", asset_type := AssetType.crypto,
    alert_type := AlertType.percent_change, target_price := 0,
    percent_change := some 5, status := AlertStatus.active, notify_email := true,
    notify_sms := false, notify_websocket := true, created_price := some 100,
    triggered_price := none, triggered_at := none }

/-- An alert that has already fired: status triggered, trigger record stamped. -/
def triggeredAlert : Alert :=
  { id := 3, user_id := 2, symbol := "BTC", asset_type := AssetType.crypto,
    alert_type := AlertType.above, target_price := 50000, percent_change := none,
    status := AlertStatus.triggered, notify_email := true, notify_sms := false,
    notify_websocket := true, created_price := none, triggered_price := some 51000,
    triggered_at := some 40 }

/-- A percent-change alert whose recorded baseline is zero. -/
def zeroBaselineAlert : Alert :=
  { id := 4, user_id := 3, symbol := "DOGE", asset_type := AssetType.crypto,
    alert_type := AlertType.percent_change, target_price := 0,
    percent_change := some 5, status := AlertStatus.active, notify_email := true,
    notify_sms := false, notify_websocket := true, created_price := some 0,
    triggered_price := none, triggered_at := none }

/-- Outcome of one upstream provider call, the oracle behind
get_crypto_price_binance, get_crypto_price_coingecko and
get_stock_price_yahoo in src/market_data/client.py: the provider returned a
price, responded that the symbol is unknown (Binance HTTP 400, CoinGecko
unmapped symbol or missing coin id, Yahoo with no price field), or errored
or timed out upstream (non-OK HTTP status or exception). -/
inductive ProviderOutcome where
  | price (p : Rat)
  | notFound
  | upstreamError
deriving DecidableEq, Repr

/-- What the Python provider helpers return: Optional[float]. Each helper
maps both the not-found case and the upstream-error case to None. -/
def provider_result : ProviderOutcome → Option Rat
  | ProviderOutcome.price p => some p
  | ProviderOutcome.notFound => none
  | ProviderOutcome.upstreamError => none

/-- Exceptions of src/market_data/exceptions.py that get_price can raise:
SymbolNotFoundException and PriceDataUnavailableException (the latter is
the SourceUnavailable case of the spec taxonomy). -/
inductive GetPriceError where
  | symbolNotFound
  | priceDataUnavailable
deriving DecidableEq, Repr

/-- MarketDataClient.get_price from src/market_data/client.py, with the
per-call provider outcomes passed as oracles. For crypto it tries Binance
then falls back to CoinGecko; for stock it uses Yahoo only; whenever every
tried provider returned None it raises SymbolNotFoundException. -/
def get_price (symbol : String) (asset_type : AssetType)
    (binance coingecko yahoo : ProviderOutcome) : Except GetPriceError Rat :=
  match asset_type with
  | AssetType.crypto =>
    match provider_result binance with
    | some p => Except.ok p
    | none =>
      match provider_result coingecko with
      | some p => Except.ok p
      | none => Except.error GetPriceError.symbolNotFound
  | AssetType.stock =>
    match provider_result yahoo with
    | some p => Except.ok p
    | none => Except.error GetPriceError.symbolNotFound

/-- One group of the monitoring cycle: the alerts sharing a
(symbol, asset_type) key, as built by PriceMonitor._group_alerts_by_symbol. -/
structure SymbolGroup where
  symbol : String
  asset_type : AssetType
  alerts : List Alert
deriving DecidableEq, Repr

/-- The per-alert loop at the end of PriceMonitor._check_symbol_alerts:
evaluates the alerts in order through _check_alert. An EvalError raised by
one alert aborts the loop there (the raising alert and all later ones are
left untouched); the error propagates to the cycle-level handler, which is
why it is returned alongside the updated alerts and emitted events. -/
def run_alerts (p : Rat) (now : Nat) : List Alert → List Alert × List Event × Option EvalError
  | [] => ([], [], none)
  | a :: rest =>
    match check_alert a p now with
    | Except.error e => (a :: rest, [], some e)
    | Except.ok (a2, evs) =>
      let r := run_alerts p now rest
      (a2 :: r.1, evs ++ r.2.1, r.2.2)

/-- PriceMonitor._check_symbol_alerts from src/monitoring/price_monitor.py:
fetch the price for the group symbol; on any fetch exception log and return,
leaving the alerts of the group untouched and broadcasting nothing; on
success broadcast the price update to the hub first and then evaluate each
alert of the group. -/
def process_group (fetch : String → AssetType → Except GetPriceError Rat) (now : Nat)
    (g : SymbolGroup) : List Alert × List Event :=
  match fetch g.symbol g.asset_type with
  | Except.error _ => (g.alerts, [])
  | Except.ok p =>
    let r := run_alerts p now g.alerts
    (r.1, Event.price_update g.symbol g.asset_type p :: r.2.1)

/-- The per-group loop of PriceMonitor._monitor_cycle: each group is
processed inside its own try/except, so a failure in one group never aborts
the remaining groups. Returns the alerts after the cycle together with the
events emitted, in order. -/
def monitor_cycle (fetch : String → AssetType → Except GetPriceError Rat) (now : Nat) :
    List SymbolGroup → List Alert × List Event
  | [] => ([], [])
  | g :: rest =>
    let r1 := process_group fetch now g
    let r2 := monitor_cycle fetch now rest
    (r1.1 ++ r2.1, r1.2 ++ r2.2)

/-- Python str.upper for the ASCII symbols this system uses. -/
def upper (s : String) : String := ⟨s.data.map Char.toUpper⟩

/-- Removal of a key from a dict modelled as an association list. -/
def eraseKey {α β : Type} [BEq α] (k : α) (l : List (α × β)) : List (α × β) :=
  l.filter (fun e => !(e.1 == k))

/-- PriceData of src/market_data/schemas.py, minus the timestamp. -/
structure PriceData where
  symbol : String
  asset_type : AssetType
  price : Rat
  source : String
deriving DecidableEq, Repr

/-- The Redis cache key built by get_current_price in
src/market_data/service.py. -/
def price_cache_key (asset_type : AssetType) (symbol : String) : String :=
  "price:" ++ asset_type.value ++ ":" ++ symbol

/-- get_current_price from src/market_data/service.py with the cache passed
explicitly and returned updated: a cache hit returns the cached price with
source cache without consulting any provider; a miss calls
market_data_client.get_price, whose exception propagates before the cache
write, so a failed fetch leaves the cache unchanged; a fetched price is
written to the cache and returned with the asset-class source tag. -/
def get_current_price (cache : List (String × Rat)) (symbol : String) (asset_type : AssetType)
    (binance coingecko yahoo : ProviderOutcome) :
    Except GetPriceError PriceData × List (String × Rat) :=
  let sym := upper symbol
  let key := price_cache_key asset_type sym
  match cache.lookup key with
  | some p =>
    (Except.ok { symbol := sym, asset_type := asset_type, price := p, source := "cache" },
     cache)
  | none =>
    match get_price sym asset_type binance coingecko yahoo with
    | Except.error e => (Except.error e, cache)
    | Except.ok price =>
      (Except.ok { symbol := sym, asset_type := asset_type, price := price,
                   source := if asset_type = AssetType.crypto then "binance" else "yahoo" },
       (key, price) :: eraseKey key cache)

/-- The state of ConnectionManager from src/websocket/manager.py:
active_connections maps a user id to its live websocket ids,
symbol_watchers maps a symbol to the set of watching user ids, and
websocket_users is the reverse websocket-to-user map. Dicts are modelled as
association lists and the watcher sets as duplicate-free lists. -/
structure ConnectionManager where
  active_connections : List (Nat × List Nat)
  symbol_watchers : List (String × List Nat)
  websocket_users : List (Nat × Nat)
deriving DecidableEq, Repr

/-- The watcher set recorded for a symbol key, empty when absent. -/
def watchersOf (st : ConnectionManager) (symbol : String) : List Nat :=
  (st.symbol_watchers.lookup symbol).getD []

/-- ConnectionManager.disconnect from src/websocket/manager.py. Looks up the
owning user (a falsy lookup result, None or user id 0, returns early),
removes the websocket from the user connection list, and when that list
becomes empty deletes the user entry and purges the user id from every
symbol watcher set, dropping watcher entries that become empty; finally the
reverse websocket entry is deleted. -/
def disconnect (st : ConnectionManager) (ws : Nat) : ConnectionManager :=
  match st.websocket_users.lookup ws with
  | none => st
  | some user_id =>
    if user_id = 0 then st
    else
      let st1 :=
        match st.active_connections.lookup user_id with
        | none => st
        | some conns =>
          let conns2 := conns.erase ws
          if conns2.isEmpty then
            { st with
              active_connections := eraseKey user_id st.active_connections,
              symbol_watchers :=
                (st.symbol_watchers.map
                    (fun e : String × List Nat =>
                      (e.1, e.2.filter (fun x => x != user_id)))).filter
                  (fun e => !e.2.isEmpty) }
          else
            { st with active_connections :=
                (user_id, conns2) :: eraseKey user_id st.active_connections }
      { st1 with websocket_users := eraseKey ws st1.websocket_users }

/-- ConnectionManager.subscribe_to_symbol from src/websocket/manager.py:
uppercases the symbol, creates the watcher entry when absent, and adds the
user id to the set. -/
def subscribe_to_symbol (st : ConnectionManager) (user_id : Nat) (symbol : String) :
    ConnectionManager :=
  let sym := upper symbol
  let users := (st.symbol_watchers.lookup sym).getD []
  let users2 := if user_id ∈ users then users else users ++ [user_id]
  { st with symbol_watchers := (sym, users2) :: eraseKey sym st.symbol_watchers }

/-- The users ConnectionManager.broadcast_to_symbol_watchers iterates,
calling send_personal_message for each: it uppercases the symbol and takes
the recorded watcher set, empty when the symbol has no entry. -/
def broadcast_recipients (st : ConnectionManager) (symbol : String) : List Nat :=
  watchersOf st (upper symbol)

/-- A concrete fetch oracle: BTC resolves to 42000, every other symbol
fails (Scenario C shape). -/
def demoFetch : String → AssetType → Except GetPriceError Rat :=
  fun s _ =>
    if s = "BTC" then Except.ok 42000 else Except.error GetPriceError.priceDataUnavailable

/-- Concrete symbol group holding the Scenario A BTC alert. -/
def btcGroup : SymbolGroup :=
  { symbol := "BTC", asset_type := AssetType.crypto, alerts := [btcAboveAlert] }

/-- Concrete symbol group holding the Scenario B ETH alert. -/
def ethGroup : SymbolGroup :=
  { symbol := "ETH", asset_type := AssetType.crypto, alerts := [pcAlert] }

/-- A hub state where user 1 has one live connection (websocket 10) and
users 1 and 2 watch ETH. -/
def demoHub : ConnectionManager :=
  { active_connections := [(1, [10])],
    symbol_watchers := [("ETH", [1, 2])],
    websocket_users := [(10, 1)] }

/-- The hub state with no connections and no watchers. -/
def emptyHub : ConnectionManager :=
  { active_connections := [], symbol_watchers := [], websocket_users := [] }

/-- A cache holding a BTC crypto price entry. -/
def demoCache : List (String × Rat) :=
  [(price_cache_key AssetType.crypto "BTC", 42000)]

/-- C1: for an active above alert, should_trigger_alert decides exactly
price ≥ target: it triggers at equality and never strictly below target. -/
theorem above_trigger_decision (a : Alert) (p : Rat)
    (hst : a.status = AlertStatus.active) (hty : a.alert_type = AlertType.above) :
    should_trigger_alert a p = Except.ok (decide (p ≥ a.target_price)) ∧
    (should_trigger_alert a p = Except.ok true ↔ p ≥ a.target_price) ∧
    (p < a.target_price → should_trigger_alert a p = Except.ok false) := by
  refine ⟨?_, ?_, ?_⟩
  · simp [should_trigger_alert, hst, hty]
  · simp [should_trigger_alert, hst, hty]
  · intro hlt
    simp [should_trigger_alert, hst, hty]
    exact hlt

/-- Witness for C1 (Scenario A): the BTC above-50000 alert triggers at an
exactly equal quote of 50000. -/
theorem above_trigger_witness :
    should_trigger_alert btcAboveAlert 50000 = Except.ok true :=
  (above_trigger_decision btcAboveAlert 50000 rfl rfl).2.1.mpr (by norm_num [btcAboveAlert])

/-- C2: for an active percent-change alert, an absent baseline never
triggers; with a recorded nonzero baseline b and threshold th, the decision
is exactly whether the absolute percent change from b reaches th. -/
theorem percent_change_trigger_decision (a : Alert) (p : Rat)
    (hst : a.status = AlertStatus.active)
    (hty : a.alert_type = AlertType.percent_change) :
    (a.created_price = none → should_trigger_alert a p = Except.ok false) ∧
    (∀ b th, a.created_price = some b → b ≠ 0 → a.percent_change = some th →
      should_trigger_alert a p = Except.ok (decide (abs (((p - b) / b) * 100) ≥ th)) ∧
      (should_trigger_alert a p = Except.ok true ↔ abs (((p - b) / b) * 100) ≥ th)) := by
  constructor
  · intro hb
    simp [should_trigger_alert, hst, hty, hb]
  · intro b th hb hbz hth
    constructor
    · simp [should_trigger_alert, hst, hty, hb, hbz, hth]
    · simp [should_trigger_alert, hst, hty, hb, hbz, hth]

/-- Witness for C2 (Scenario B): baseline 100, threshold 5; quote 104 does
not trigger, quotes 105 and 95 both trigger. -/
theorem percent_change_trigger_witness :
    should_trigger_alert pcAlert 104 = Except.ok false ∧
    should_trigger_alert pcAlert 105 = Except.ok true ∧
    should_trigger_alert pcAlert 95 = Except.ok true := by
  have h104 :=
    ((percent_change_trigger_decision pcAlert 104 rfl rfl).2 100 5 rfl (by norm_num) rfl).1
  have h105 :=
    ((percent_change_trigger_decision pcAlert 105 rfl rfl).2 100 5 rfl (by norm_num) rfl).1
  have h95 :=
    ((percent_change_trigger_decision pcAlert 95 rfl rfl).2 100 5 rfl (by norm_num) rfl).1
  refine ⟨?_, ?_, ?_⟩
  · rw [h104, decide_eq_false (by norm_num)]
  · rw [h105, decide_eq_true (by norm_num)]
  · rw [h95, decide_eq_true (by norm_num)]

/-- C3: an alert whose status is not active never triggers, and evaluating
it through the monitor is a no-op: the alert is returned unchanged (its
triggered_price and triggered_at in particular) and no notification is sent. -/
theorem inactive_alert_is_noop (a : Alert) (p : Rat) (now : Nat)
    (hst : a.status ≠ AlertStatus.active) :
    should_trigger_alert a p = Except.ok false ∧
    check_alert a p now = Except.ok (a, []) := by
  have h : should_trigger_alert a p = Except.ok false := by
    simp [should_trigger_alert, hst]
  exact ⟨h, by simp [check_alert, h]⟩

/-- Witness for C3: re-evaluating an already-triggered alert at a price past
its target neither re-triggers it nor re-stamps its trigger record. -/
theorem inactive_alert_witness :
    should_trigger_alert triggeredAlert 60000 = Except.ok false ∧
    check_alert triggeredAlert 60000 7 = Except.ok (triggeredAlert, []) :=
  inactive_alert_is_noop triggeredAlert 60000 7 (by decide)

/-- C10: for an active percent-change alert whose recorded baseline is zero,
should_trigger_alert is not total: the None-guard passes and the percent
computation divides by the zero created_price, raising ZeroDivisionError. -/
theorem zero_baseline_division_error (a : Alert) (p : Rat)
    (hst : a.status = AlertStatus.active)
    (hty : a.alert_type = AlertType.percent_change)
    (hb : a.created_price = some 0) :
    should_trigger_alert a p = Except.error EvalError.zeroDivisionError := by
  simp [should_trigger_alert, hst, hty, hb]

/-- Witness for C10: a concrete active percent-change alert with baseline 0
raises ZeroDivisionError at quote 50 instead of returning a decision. -/
theorem zero_baseline_witness :
    should_trigger_alert zeroBaselineAlert 50 = Except.error EvalError.zeroDivisionError :=
  zero_baseline_division_error zeroBaselineAlert 50 rfl rfl rfl

/-- C4: a fetch failure for one symbol group only skips that group: its
alerts come out of the cycle untouched and it broadcasts nothing, while
every other group of the same cycle is processed exactly as it would be on
its own — the cycle completes normally. -/
theorem fetch_failure_isolated (fetch : String → AssetType → Except GetPriceError Rat)
    (now : Nat) (gs1 gs2 : List SymbolGroup) (g : SymbolGroup) (e : GetPriceError)
    (hf : fetch g.symbol g.asset_type = Except.error e) :
    monitor_cycle fetch now (gs1 ++ g :: gs2) =
      ((monitor_cycle fetch now gs1).1 ++ g.alerts ++ (monitor_cycle fetch now gs2).1,
       (monitor_cycle fetch now gs1).2 ++ (monitor_cycle fetch now gs2).2) := by
  induction gs1 with
  | nil => simp [monitor_cycle, process_group, hf]
  | cons h t ih => simp [monitor_cycle, ih, List.append_assoc]

/-- Witness for C4 (Scenario C): with the ETH fetch failing and the BTC
fetch succeeding, the two-group cycle leaves the ETH alerts untouched and
processes the BTC group exactly as on its own. -/
theorem fetch_failure_witness :
    monitor_cycle demoFetch 0 ([] ++ ethGroup :: [btcGroup]) =
      ((monitor_cycle demoFetch 0 []).1 ++ ethGroup.alerts ++
         (monitor_cycle demoFetch 0 [btcGroup]).1,
       (monitor_cycle demoFetch 0 []).2 ++ (monitor_cycle demoFetch 0 [btcGroup]).2) :=
  fetch_failure_isolated demoFetch 0 [] [btcGroup] ethGroup
    GetPriceError.priceDataUnavailable rfl

/-- C5 counterexample: when every provider errors or times out (transient
upstream outage), get_price still fails with SymbolNotFoundException, not
with PriceDataUnavailableException as the SourceUnavailable taxonomy
demands. -/
theorem get_price_counterexample :
    get_price "BTC" AssetType.crypto ProviderOutcome.upstreamError
        ProviderOutcome.upstreamError ProviderOutcome.upstreamError =
      Except.error GetPriceError.symbolNotFound ∧
    (Except.error GetPriceError.symbolNotFound : Except GetPriceError Rat) ≠
      Except.error GetPriceError.priceDataUnavailable :=
  ⟨rfl, by simp⟩

/-- C5 amended: get_price does not distinguish the two failure cases; every
failure it raises is SymbolNotFoundException, it fails exactly when every
provider tried for the asset class returned None (so any provider returning
a price precludes failure, first success winning in fallback order), and
PriceDataUnavailableException is never raised. -/
theorem get_price_failure_collapsed (symbol : String) (b c y : ProviderOutcome) :
    (∀ e, get_price symbol AssetType.crypto b c y = Except.error e →
      e = GetPriceError.symbolNotFound) ∧
    (∀ e, get_price symbol AssetType.stock b c y = Except.error e →
      e = GetPriceError.symbolNotFound) ∧
    (get_price symbol AssetType.crypto b c y = Except.error GetPriceError.symbolNotFound ↔
      provider_result b = none ∧ provider_result c = none) ∧
    (get_price symbol AssetType.stock b c y = Except.error GetPriceError.symbolNotFound ↔
      provider_result y = none) ∧
    (∀ p, provider_result b = some p →
      get_price symbol AssetType.crypto b c y = Except.ok p) ∧
    (∀ p, provider_result b = none → provider_result c = some p →
      get_price symbol AssetType.crypto b c y = Except.ok p) ∧
    (∀ p, provider_result y = some p →
      get_price symbol AssetType.stock b c y = Except.ok p) := by
  cases hb : provider_result b <;> cases hc : provider_result c <;>
    cases hy : provider_result y <;> simp [get_price, hb, hc, hy]

/-- Witness for C5 amended: with Binance erroring upstream and the symbol
unknown to CoinGecko, the crypto fetch fails with SymbolNotFoundException. -/
theorem get_price_failure_witness :
    get_price "XYZ" AssetType.crypto ProviderOutcome.upstreamError ProviderOutcome.notFound
        ProviderOutcome.notFound = Except.error GetPriceError.symbolNotFound :=
  (get_price_failure_collapsed "XYZ" ProviderOutcome.upstreamError ProviderOutcome.notFound
      ProviderOutcome.notFound).2.2.1.mpr ⟨rfl, rfl⟩

/-- Helper for C6: after the disconnect cleanup maps a removal of the user
id over every watcher entry and drops the entries that became empty, the
user id is in no looked-up watcher set. -/
theorem lookup_purged_not_mem (u : Nat) (s : String) (l : List (String × List Nat)) :
    u ∉ (List.lookup s ((l.map (fun e : String × List Nat =>
        (e.1, e.2.filter (fun x => x != u)))).filter
          (fun e => !e.2.isEmpty))).getD [] := by
  induction l with
  | nil => simp
  | cons hd tl ih =>
    simp only [List.map_cons, List.filter_cons]
    by_cases hemp : (hd.2.filter (fun x => x != u)).isEmpty
    · simp [hemp, ih]
    · by_cases hs : s == hd.1
      · simp [hemp, List.lookup, hs, List.mem_filter]
      · simp [hemp, List.lookup, hs, ih]

/-- C6: when a disconnect removes the last live connection of a user (the
websocket maps to that user, the user id is truthy, and erasing the
websocket empties the recorded connection list), the user id is afterwards
absent from the watcher set of every symbol. -/
theorem disconnect_clears_watchers (st : ConnectionManager) (ws u : Nat) (conns : List Nat)
    (hws : st.websocket_users.lookup ws = some u) (hu : u ≠ 0)
    (hconns : st.active_connections.lookup u = some conns)
    (hlast : conns.erase ws = []) :
    ∀ s : String, u ∉ watchersOf (disconnect st ws) s := by
  intro s
  unfold disconnect
  rw [hws]
  simp only [hu, if_false, hconns, hlast]
  simp only [watchersOf]
  simp only [List.isEmpty_nil, if_true]
  exact lookup_purged_not_mem u s st.symbol_watchers

/-- Witness for C6: disconnecting websocket 10, the only connection of
user 1, removes user 1 from the ETH watcher set it was in. -/
theorem disconnect_witness :
    (1 : Nat) ∉ watchersOf (disconnect demoHub 10) "ETH" :=
  disconnect_clears_watchers demoHub 10 1 [10] rfl (by decide) rfl (by decide) "ETH"

/-- C7: whenever the fetch for a group succeeds, the price update is
broadcast to the hub as the first emitted event of the group, before and
independently of alert evaluation — in particular it is emitted whatever
the alerts of the group are, including when none of them triggers. -/
theorem broadcast_precedes_evaluation
    (fetch : String → AssetType → Except GetPriceError Rat) (now : Nat)
    (g : SymbolGroup) (p : Rat)
    (hf : fetch g.symbol g.asset_type = Except.ok p) :
    (process_group fetch now g).2 =
      Event.price_update g.symbol g.asset_type p :: (run_alerts p now g.alerts).2.1 ∧
    ((process_group fetch now g).2).head? =
      some (Event.price_update g.symbol g.asset_type p) := by
  constructor <;> simp [process_group, hf]

/-- Witness for C7: the BTC group broadcasts its fetched price 42000 as the
first event of the group. -/
theorem broadcast_witness :
    ((process_group demoFetch 0 btcGroup).2).head? =
      some (Event.price_update "BTC" AssetType.crypto 42000) :=
  (broadcast_precedes_evaluation demoFetch 0 btcGroup 42000 rfl).2

/-- C8: subscribe records the watcher under the uppercased symbol, and a
broadcast for that uppercased symbol iterates over this user — stated for
any spelling s whose uppercase form is su. -/
theorem subscribe_canonicalizes (st : ConnectionManager) (u : Nat) (s su : String)
    (hup : upper s = su) (hid : upper su = su) :
    u ∈ watchersOf (subscribe_to_symbol st u s) su ∧
    u ∈ broadcast_recipients (subscribe_to_symbol st u s) su := by
  have hmem : u ∈ watchersOf (subscribe_to_symbol st u s) su := by
    unfold subscribe_to_symbol watchersOf
    simp only [hup, List.lookup, beq_self_eq_true, Option.getD_some]
    by_cases h : u ∈ (List.lookup su st.symbol_watchers).getD []
    · simp [h]
    · simp [h]
  refine ⟨hmem, ?_⟩
  unfold broadcast_recipients
  rw [hid]
  exact hmem

/-- Witness for C8 (Scenario D): a user subscribing to lowercase eth is
recorded as a watcher of ETH and is among the recipients of an ETH
broadcast. -/
theorem subscribe_witness :
    (1 : Nat) ∈ watchersOf (subscribe_to_symbol emptyHub 1 "eth") "ETH" ∧
    (1 : Nat) ∈ broadcast_recipients (subscribe_to_symbol emptyHub 1 "eth") "ETH" :=
  subscribe_canonicalizes emptyHub 1 "eth" "ETH" (by decide) (by decide)

/-- C9: a cache hit returns immediately with the cached price tagged with
source cache and an unchanged cache, whatever the provider outcomes are (no
provider is contacted); on a miss, a failing fetch propagates its exception
with the cache unchanged (failures are never cached), and only a fetched
price populates the cache. -/
theorem cache_policy (cache : List (String × Rat)) (symbol : String) (aty : AssetType)
    (b c y : ProviderOutcome) :
    (∀ p, cache.lookup (price_cache_key aty (upper symbol)) = some p →
      get_current_price cache symbol aty b c y =
        (Except.ok { symbol := upper symbol, asset_type := aty, price := p,
                     source := "cache" }, cache)) ∧
    (∀ e, cache.lookup (price_cache_key aty (upper symbol)) = none →
      get_price (upper symbol) aty b c y = Except.error e →
      get_current_price cache symbol aty b c y = (Except.error e, cache)) ∧
    (∀ p, cache.lookup (price_cache_key aty (upper symbol)) = none →
      get_price (upper symbol) aty b c y = Except.ok p →
      get_current_price cache symbol aty b c y =
        (Except.ok { symbol := upper symbol, asset_type := aty, price := p,
                     source := if aty = AssetType.crypto then "binance" else "yahoo" },
         (price_cache_key aty (upper symbol), p) ::
           eraseKey (price_cache_key aty (upper symbol)) cache)) := by
  refine ⟨?_, ?_, ?_⟩
  · intro p hp
    simp [get_current_price, hp]
  · intro e hn he
    simp [get_current_price, hn, he]
  · intro p hn hp
    simp [get_current_price, hn, hp]

/-- Witness for C9: with a cached BTC entry of 42000 and every provider
erroring, the lookup still returns the cached price tagged cache with the
cache unchanged — the providers are never contacted. -/
theorem cache_witness :
    get_current_price demoCache "BTC" AssetType.crypto ProviderOutcome.upstreamError
        ProviderOutcome.upstreamError ProviderOutcome.upstreamError =
      (Except.ok { symbol := "BTC", asset_type := AssetType.crypto, price := 42000,
                   source := "cache" }, demoCache) :=
  (cache_policy demoCache "BTC" AssetType.crypto ProviderOutcome.upstreamError
      ProviderOutcome.upstreamError ProviderOutcome.upstreamError).1 42000 rfl

end CryptoAlert
